import Mathlib

/-!
Verification of the COVID-19 case-surveillance ingestion pipeline
(`Ingestion.py`): a shallow embedding of its data model and operations,
with theorems settling the specification claims.

Modelling conventions:
* A pandas cell is `Cell`: the Python `None` object, the float `NaN`
  (also standing for `NaT`), a string, or a parsed datetime (abstracted
  to an integer timestamp).
* A `DataFrame` is a column-name list plus row-major data; every row of a
  well-formed frame has one cell per column.
* `pd.to_datetime(-, errors="coerce")` is parameterised by the underlying
  string-to-timestamp parser `parse : String -> Option Int`; on parse
  failure it yields the null date (`Cell.nan`, standing for `NaT`).
* Python `str(x)` on a cell is `cellToStr`: `None ↦ "None"`, `NaN ↦ "nan"`,
  a string to itself.
-/

namespace Ingestion

/-- A single pandas cell: Python `None`, float `NaN`/`NaT`, a string, or a
parsed datetime (abstract integer timestamp). -/
inductive Cell where
  | pyNone : Cell
  | nan : Cell
  | str : String → Cell
  | date : Int → Cell
deriving DecidableEq, Repr

/-- `str(x)` in Python, applied to a cell, as `astype(str)` does elementwise:
`None` stringifies to `"None"`, `NaN` to `"nan"`. -/
def cellToStr : Cell → String
  | .pyNone => "None"
  | .nan => "nan"
  | .str s => s
  | .date d => toString d

/-- Python's `str.strip()`: remove leading and trailing whitespace. -/
def pyStrip (s : String) : String :=
  ⟨((s.data.dropWhile Char.isWhitespace).reverse.dropWhile Char.isWhitespace).reverse⟩

/-- Python's `str.upper()`: uppercase every character. -/
def pyUpper (s : String) : String :=
  ⟨s.data.map Char.toUpper⟩

/-- A pandas DataFrame: column names plus row-major cells. In a well-formed
frame each row has exactly `cols.length` cells. -/
structure DataFrame where
  cols : List String
  rows : List (List Cell)
deriving DecidableEq, Repr

/-- The columns retained from the API response (`KEEP_COLS` in the source). -/
def KEEP_COLS : List String :=
  ["case_month", "cdc_case_earliest_dt", "res_state",
   "age_group", "sex", "race", "ethnicity",
   "death_yn", "hosp_yn", "icu_yn", "medcond_yn"]

/-- A raw API record: a JSON object, i.e. an association list from field
names to cells (fields vary in presence across records). -/
abbrev RawRecord : Type := List (String × Cell)

/-- The column list `pd.DataFrame.from_records` infers: the union of the
records' keys in order of first appearance. -/
def recordCols (rs : List RawRecord) : List String :=
  rs.foldl (fun acc r => acc ++ ((r.map Prod.fst).filter (fun k => k ∉ acc))) []

/-- One materialised row of `pd.DataFrame.from_records`: the record's value
at each inferred column, a missing key becoming `NaN`. -/
def recordRow (cols : List String) (r : RawRecord) : List Cell :=
  cols.map (fun c => ((r : List (String × Cell)).lookup c).getD Cell.nan)

/-- `pd.DataFrame.from_records(rows)`. -/
def fromRecords (rs : List RawRecord) : DataFrame :=
  let cols := recordCols rs
  ⟨cols, rs.map (recordRow cols)⟩

/-- `df[c] = None`: append a column whose every cell is Python `None`. -/
def addNoneCol (df : DataFrame) (c : String) : DataFrame :=
  ⟨df.cols ++ [c], df.rows.map (fun r => r ++ [Cell.pyNone])⟩

/-- The `for c in KEEP_COLS: if c not in df.columns: df[c] = None` loop. -/
def addMissingCols (df : DataFrame) : DataFrame :=
  KEEP_COLS.foldl (fun d c => if c ∈ d.cols then d else addNoneCol d c) df

/-- `df[cs].copy()`: project onto the columns `cs`, in that order. -/
def selectCols (df : DataFrame) (cs : List String) : DataFrame :=
  ⟨cs, df.rows.map (fun r => cs.map (fun c => r.getD (df.cols.indexOf c) Cell.nan))⟩

/-- `transform_rows_to_df(rows)` from the source: empty input yields the
empty frame with the fixed schema; otherwise build from records, add any
missing fixed column as all-`None`, and project to `KEEP_COLS`. -/
def transform_rows_to_df (rows : List RawRecord) : DataFrame :=
  if rows = [] then ⟨KEEP_COLS, []⟩
  else selectCols (addMissingCols (fromRecords rows)) KEEP_COLS

/-- `drop_duplicates()` on the row list: keep the first occurrence of each
distinct row, drop later duplicates, preserving order of survivors. -/
def dedupFirst (seen : List (List Cell)) : List (List Cell) → List (List Cell)
  | [] => []
  | r :: rs => if r ∈ seen then dedupFirst seen rs else r :: dedupFirst (r :: seen) rs

/-- `df[c] = f(df[c])` guarded by `if c in df.columns`: update the column
`c` cellwise, leaving the frame unchanged when the column is absent. -/
def mapCol (df : DataFrame) (c : String) (f : Cell → Cell) : DataFrame :=
  if c ∈ df.cols then
    let i := df.cols.indexOf c
    ⟨df.cols, df.rows.map (fun r => r.set i (f (r.getD i Cell.nan)))⟩
  else df

/-- `pd.to_datetime(x, errors="coerce")` elementwise, with the underlying
string parser abstracted: nulls and unparseable strings become `NaT`
(`Cell.nan`), parseable strings become dates. -/
def toDatetimeCell (parse : String → Option Int) : Cell → Cell
  | .pyNone => .nan
  | .nan => .nan
  | .str s => match parse s with
    | some d => .date d
    | none => .nan
  | .date d => .date d

/-- `.astype(str).str.strip()` elementwise. -/
def stripCell (x : Cell) : Cell := .str (pyStrip (cellToStr x))

/-- `.astype(str).str.strip().str.upper()` elementwise. -/
def stripUpperCell (x : Cell) : Cell := .str (pyUpper (pyStrip (cellToStr x)))

/-- `.replace({"None": None, "nan": None, "": None})` elementwise. -/
def replaceNoneCell (x : Cell) : Cell :=
  if x = .str "None" ∨ x = .str "nan" ∨ x = .str "" then .pyNone else x

/-- `.fillna("Unknown")` elementwise: both `None` and `NaN` are filled. -/
def fillUnknownCell (x : Cell) : Cell :=
  match x with
  | .pyNone => .str "Unknown"
  | .nan => .str "Unknown"
  | x => x

/-- The nine columns stripped by the first text-cleaning loop (line 88). -/
def STRIP_COLS : List String :=
  ["case_month", "age_group", "sex", "race", "ethnicity",
   "death_yn", "hosp_yn", "icu_yn", "medcond_yn"]

/-- `categorical_cols` (line 94): the columns whose blanks and
`"None"`/`"nan"` placeholders are replaced by `"Unknown"`. Note that
`case_month` is absent from this list. -/
def categorical_cols : List String :=
  ["age_group", "sex", "race", "ethnicity",
   "death_yn", "hosp_yn", "icu_yn", "medcond_yn"]

/-- `clean_df` from the source: copy, drop duplicate rows, coerce the date
column, strip/uppercase the state column, strip the nine text columns, and
replace missing markers with `"Unknown"` in the eight categorical columns. -/
def clean_df (parse : String → Option Int) (df : DataFrame) : DataFrame :=
  let df1 : DataFrame := ⟨df.cols, dedupFirst [] df.rows⟩
  let df2 := mapCol df1 "cdc_case_earliest_dt" (toDatetimeCell parse)
  let df3 := mapCol df2 "res_state" stripUpperCell
  let df4 := STRIP_COLS.foldl (fun d c => mapCol d c stripCell) df3
  categorical_cols.foldl (fun d c => mapCol (mapCol d c replaceNoneCell) c fillUnknownCell) df4

/-! ## Page fetcher (`fetch_page`, lines 35-56)

An underlying `requests.get` + `raise_for_status` attempt either yields a
decoded JSON array (2xx), raises `HTTPError` with a status, or raises a
network-level `RequestException` (timeout, connection error). The attempt
sequence is abstracted as a function from the attempt index. -/

/-- The outcome of one underlying HTTP attempt
(`requests.get` followed by `raise_for_status`). -/
inductive ReqOutcome where
  | ok : List RawRecord → ReqOutcome
  | httpError : Nat → ReqOutcome
  | netError : ReqOutcome
deriving DecidableEq, Repr

/-- A Python exception escaping `fetch_page`. -/
inductive PyError where
  | httpErr : Nat → PyError
  | netErr : PyError
deriving DecidableEq, Repr

/-- What `fetch_page` hands its caller: a JSON row list, Python `None`
("no data"), or a raised exception. -/
inductive FetchResult where
  | data : List RawRecord → FetchResult
  | noData : FetchResult
  | raised : PyError → FetchResult
deriving DecidableEq, Repr

/-- The observable trace of one `fetch_page` call: its result, how many
underlying requests it performed, and the sleeps (in seconds) it made. -/
structure FetchTrace where
  result : FetchResult
  calls : Nat
  sleeps : List Nat
deriving DecidableEq, Repr

/-- `fetch_page` (lines 41-56): on HTTP 429 sleep 2 seconds and retry the
identical request once, errors of that retry propagating (the sibling
`except` clause does not catch exceptions raised inside the 429 handler);
other HTTP errors propagate at once; a network-level failure is swallowed
and yields `None`. -/
def fetch_page (http : Nat → ReqOutcome) : FetchTrace :=
  match http 0 with
  | .ok rows => ⟨.data rows, 1, []⟩
  | .httpError s =>
    if s = 429 then
      match http 1 with
      | .ok rows => ⟨.data rows, 2, [2]⟩
      | .httpError s2 => ⟨.raised (.httpErr s2), 2, [2]⟩
      | .netError => ⟨.raised .netErr, 2, [2]⟩
    else ⟨.raised (.httpErr s), 1, []⟩
  | .netError => ⟨.noData, 1, []⟩

/-! ## Pipeline driver (`main`, lines 127-196)

The driver is modelled as a loop over an abstract page source
`fetchFn : limit → offset → FetchResult` standing for
`fetch_page(limit=need, offset=offset, where=where)`. The raw landing and
tag-filtered read-back round-trip through the store (lines 154-170) is
modelled as the identity on the batch: the read-back returns exactly the
rows just landed, with the tag column dropped again. Sleeps and prints are
no-ops. The loop is written with explicit fuel; `main` supplies
`max_records + 1`, which is enough fuel because each executed iteration
consumes at least one fetched row out of the `max_records` budget. -/

/-- Why the driver loop ended. -/
inductive ExitReason where
  | maxReached : ExitReason
  | noRows : ExitReason
  | shortPage : ExitReason
  | raised : PyError → ExitReason
  | outOfFuel : ExitReason
deriving DecidableEq, Repr

/-- The observable outcome of a driver run: fetch cycles performed, total
rows inserted into the curated table, total rows fetched, exit condition. -/
structure DriverResult where
  cycles : Nat
  totalInserted : Nat
  totalFetched : Nat
  exit : ExitReason
deriving DecidableEq, Repr

/-- One `while total_fetched < max_records` loop (lines 139-193), with
fuel: compute `need`, fetch, stop on no rows, land/read back/clean, insert
`len(df_clean)` rows, advance the offset by the fetched count, and stop
after the iteration when the page was shorter than requested. -/
def driverLoop (parse : String → Option Int) (fetchFn : Nat → Nat → FetchResult)
    (page_size max_records : Nat) :
    Nat → Nat → Nat → Nat → Nat → DriverResult
  | 0, total_fetched, _, total_inserted, cycles =>
    ⟨cycles, total_inserted, total_fetched, .outOfFuel⟩
  | fuel + 1, total_fetched, offset, total_inserted, cycles =>
    if total_fetched < max_records then
      let need := min page_size (max_records - total_fetched)
      match fetchFn need offset with
      | .raised e => ⟨cycles + 1, total_inserted, total_fetched, .raised e⟩
      | .noData => ⟨cycles + 1, total_inserted, total_fetched, .noRows⟩
      | .data [] => ⟨cycles + 1, total_inserted, total_fetched, .noRows⟩
      | .data rows =>
        let fetched_count := rows.length
        let total_fetched' := total_fetched + fetched_count
        let df_clean := clean_df parse (transform_rows_to_df rows)
        let total_inserted' := total_inserted + df_clean.rows.length
        if fetched_count < need then
          ⟨cycles + 1, total_inserted', total_fetched', .shortPage⟩
        else
          driverLoop parse fetchFn page_size max_records fuel total_fetched'
            (offset + fetched_count) total_inserted' (cycles + 1)
    else ⟨cycles, total_inserted, total_fetched, .maxReached⟩

/-- `main` with its page size and record cap as parameters: run the loop
from zero counters at offset 0. -/
def runDriver (parse : String → Option Int) (fetchFn : Nat → Nat → FetchResult)
    (page_size max_records : Nat) : DriverResult :=
  driverLoop parse fetchFn page_size max_records (max_records + 1) 0 0 0 0

/-! ## Row-level view of `clean_df` on the fixed schema

On a frame whose columns are exactly `KEEP_COLS`, the column indices are
case_month 0, cdc_case_earliest_dt 1, res_state 2, age_group 3, sex 4,
race 5, ethnicity 6, death_yn 7, hosp_yn 8, icu_yn 9, medcond_yn 10, and
`clean_df` acts as row deduplication followed by an independent map over
the surviving rows. -/

/-- Update position `i` of a row through `f`, exactly as one guarded
column assignment of `clean_df` acts on each row. -/
def setf (i : Nat) (f : Cell → Cell) (r : List Cell) : List Cell :=
  r.set i (f (r.getD i Cell.nan))

/-- The per-row action of one guarded column assignment
`if c in df.columns: df[c] = f(df[c])` on a frame with columns `cols`. -/
def rowStep (cols : List String) (c : String) (f : Cell → Cell) :
    List Cell → List Cell :=
  if c ∈ cols then setf (cols.indexOf c) f else id

/-- The action of `clean_df` on one surviving row of a frame with columns
`cols`: the date coercion, the state strip/uppercase, the nine strips, and
the eight replace-then-fill passes, in source order. -/
def cleanRow (cols : List String) (parse : String → Option Int)
    (r : List Cell) : List Cell :=
  categorical_cols.foldl
    (fun r c => rowStep cols c fillUnknownCell (rowStep cols c replaceNoneCell r))
    (STRIP_COLS.foldl (fun r c => rowStep cols c stripCell r)
      (rowStep cols "res_state" stripUpperCell
        (rowStep cols "cdc_case_earliest_dt" (toDatetimeCell parse) r)))

/-- The full categorical-column cell pipeline: strip, replace missing
markers by `None`, fill nulls with `"Unknown"`. -/
def catCleanCell (x : Cell) : Cell :=
  fillUnknownCell (replaceNoneCell (stripCell x))

/-- The missing-value markers of the cleaning step: the empty string, the
literal strings `"None"` and `"nan"`, and the two nulls. -/
def missingMark (x : Cell) : Prop :=
  x = .str "" ∨ x = .str "None" ∨ x = .str "nan" ∨ x = .pyNone ∨ x = .nan

instance (x : Cell) : Decidable (missingMark x) := by
  unfold missingMark; infer_instance

/-! ## Aliasing model of the `clean_df` body (for the purity contract)

Python-level mutation: the caller passes a reference to its frame object;
`df = df.copy()` and `df = df.drop_duplicates()` rebind the local name to
a fresh object, while `df[c] = ...` writes to whatever object the name
currently points to. The state tracks the caller's object, the object the
local name points to, and whether the two are the same object. -/

/-- Execution state of the `clean_df` body: the value of the caller's
frame object, the value of the object the local `df` points to, and
whether `df` still aliases the caller's object. -/
structure ExecState where
  caller : DataFrame
  cur : DataFrame
  aliased : Bool
deriving DecidableEq, Repr

/-- `df = f(df)` for an `f` returning a fresh object (`copy`,
`drop_duplicates`): the local name stops aliasing the caller's object. -/
def rebind (f : DataFrame → DataFrame) (s : ExecState) : ExecState :=
  ⟨s.caller, f s.cur, false⟩

/-- `df[c] = ...`: an in-place write to the object the name points to;
when it still aliases the caller's object the caller sees the write. -/
def inplace (f : DataFrame → DataFrame) (s : ExecState) : ExecState :=
  if s.aliased then ⟨f s.caller, f s.cur, true⟩ else ⟨s.caller, f s.cur, false⟩

/-- The body of `clean_df` (lines 75-100) executed line by line in the
aliasing model, starting from the call where the local `df` aliases the
caller's object. -/
def clean_df_exec (parse : String → Option Int) (df : DataFrame) : ExecState :=
  let s0 : ExecState := ⟨df, df, true⟩
  let s1 := rebind id s0
  let s2 := rebind (fun d => ⟨d.cols, dedupFirst [] d.rows⟩) s1
  let s3 := inplace (fun d => mapCol d "cdc_case_earliest_dt" (toDatetimeCell parse)) s2
  let s4 := inplace (fun d => mapCol d "res_state" stripUpperCell) s3
  let s5 := STRIP_COLS.foldl (fun s c => inplace (fun d => mapCol d c stripCell) s) s4
  categorical_cols.foldl (fun s c =>
    inplace (fun d => mapCol d c fillUnknownCell)
      (inplace (fun d => mapCol d c replaceNoneCell) s)) s5

/-! ## Concrete fixtures -/

/-- A date parser that parses nothing; claims quantified over the
abstract parser are instantiated with it in witnesses. -/
def noParse : String → Option Int := fun _ => none

/-- A five-record dataset with pairwise distinct `res_state` values. -/
def fiveRecords : List RawRecord :=
  [[("res_state", Cell.str "AK")], [("res_state", Cell.str "AL")],
   [("res_state", Cell.str "AR")], [("res_state", Cell.str "AZ")],
   [("res_state", Cell.str "CA")]]

/-- A fake page source over `fiveRecords` honouring limit and offset: with
page size 2 and a cap of 5 it produces pages of sizes 2, 2, 1. -/
def fiveSource : Nat → Nat → FetchResult := fun limit offset =>
  .data ((fiveRecords.drop offset).take limit)

/-- An attempt sequence that is rate-limited once, then succeeds. -/
def retryHttp : Nat → ReqOutcome := fun n =>
  if n = 0 then .httpError 429 else .ok [[("sex", Cell.str "Female")]]

/-- An attempt sequence that always fails with HTTP 500. -/
def serverErrHttp : Nat → ReqOutcome := fun _ => .httpError 500

/-- A per-page attempt family whose every underlying request fails at the
network level. -/
def netErrHttp : Nat → Nat → Nat → ReqOutcome := fun _ _ _ => .netError

/-- A page source that always returns a single row, regardless of the
requested limit. -/
def shortSource : Nat → Nat → FetchResult := fun _ _ =>
  .data [[("sex", Cell.str "Female")]]

/-- A one-row frame exercising every missing-value marker in the
categorical columns: blank, `None`, the strings "nan"/"None", and `NaN`. -/
def unkFrame : DataFrame :=
  ⟨KEEP_COLS,
   [[Cell.str "2020-07", Cell.str "x", Cell.str " ny ", Cell.str "",
     Cell.pyNone, Cell.str "nan", Cell.nan, Cell.str " Yes ",
     Cell.str "None", Cell.str "N", Cell.str "Missing"]]⟩

/-- A one-row frame whose date cell holds an unparseable string. -/
def dateFrame : DataFrame :=
  ⟨KEEP_COLS,
   [[Cell.str "2020-07", Cell.str "not-a-date", Cell.str "NY", Cell.str "a",
     Cell.str "b", Cell.str "c", Cell.str "d", Cell.str "e", Cell.str "f",
     Cell.str "g", Cell.str "h"]]⟩

/-- A one-row frame whose `res_state` cell is Python `None`. -/
def resFrame : DataFrame :=
  ⟨KEEP_COLS,
   [[Cell.str "m", Cell.str "d", Cell.pyNone, Cell.str "a", Cell.str "b",
     Cell.str "c", Cell.str "d", Cell.str "e", Cell.str "f", Cell.str "g",
     Cell.str "h"]]⟩

/-! ## Supporting lemmas -/

set_option maxRecDepth 8000

lemma mapCol_eq (df : DataFrame) (c : String) (f : Cell → Cell) :
    mapCol df c f = ⟨df.cols, df.rows.map (rowStep df.cols c f)⟩ := by
  unfold mapCol rowStep
  split
  · rfl
  · cases df with
    | mk cols rows => simp

lemma foldl_mapCol (f : Cell → Cell) (cs : List String) (df : DataFrame) :
    cs.foldl (fun d c => mapCol d c f) df =
      ⟨df.cols, df.rows.map (fun r => cs.foldl (fun r c => rowStep df.cols c f r) r)⟩ := by
  induction cs generalizing df with
  | nil => cases df with
    | mk cols rows => simp
  | cons c cs ih =>
    rw [List.foldl_cons, ih, mapCol_eq]
    simp only [List.map_map]
    rfl

lemma foldl_mapCol2 (f g : Cell → Cell) (cs : List String) (df : DataFrame) :
    cs.foldl (fun d c => mapCol (mapCol d c f) c g) df =
      ⟨df.cols, df.rows.map
        (fun r => cs.foldl (fun r c => rowStep df.cols c g (rowStep df.cols c f r)) r)⟩ := by
  induction cs generalizing df with
  | nil => cases df with
    | mk cols rows => simp
  | cons c cs ih =>
    rw [List.foldl_cons, ih, mapCol_eq, mapCol_eq]
    simp only [List.map_map]
    rfl

/-- `clean_df` is row deduplication followed by an independent per-row map. -/
lemma clean_df_decomp (parse : String → Option Int) (df : DataFrame) :
    clean_df parse df =
      ⟨df.cols, (dedupFirst [] df.rows).map (cleanRow df.cols parse)⟩ := by
  unfold clean_df cleanRow
  rw [foldl_mapCol2, foldl_mapCol, mapCol_eq, mapCol_eq]
  simp only [List.map_map]
  rfl

lemma rowStep_col (c : String) (f : Cell → Cell) (i : Nat)
    (h1 : c ∈ KEEP_COLS) (h2 : KEEP_COLS.indexOf c = i) :
    rowStep KEEP_COLS c f = setf i f := by
  unfold rowStep
  rw [if_pos h1, h2]

lemma rowStep_kc0 (f : Cell → Cell) : rowStep KEEP_COLS "case_month" f = setf 0 f :=
  rowStep_col _ f 0 (by decide) (by decide)

lemma rowStep_kc1 (f : Cell → Cell) : rowStep KEEP_COLS "cdc_case_earliest_dt" f = setf 1 f :=
  rowStep_col _ f 1 (by decide) (by decide)

lemma rowStep_kc2 (f : Cell → Cell) : rowStep KEEP_COLS "res_state" f = setf 2 f :=
  rowStep_col _ f 2 (by decide) (by decide)

lemma rowStep_kc3 (f : Cell → Cell) : rowStep KEEP_COLS "age_group" f = setf 3 f :=
  rowStep_col _ f 3 (by decide) (by decide)

lemma rowStep_kc4 (f : Cell → Cell) : rowStep KEEP_COLS "sex" f = setf 4 f :=
  rowStep_col _ f 4 (by decide) (by decide)

lemma rowStep_kc5 (f : Cell → Cell) : rowStep KEEP_COLS "race" f = setf 5 f :=
  rowStep_col _ f 5 (by decide) (by decide)

lemma rowStep_kc6 (f : Cell → Cell) : rowStep KEEP_COLS "ethnicity" f = setf 6 f :=
  rowStep_col _ f 6 (by decide) (by decide)

lemma rowStep_kc7 (f : Cell → Cell) : rowStep KEEP_COLS "death_yn" f = setf 7 f :=
  rowStep_col _ f 7 (by decide) (by decide)

lemma rowStep_kc8 (f : Cell → Cell) : rowStep KEEP_COLS "hosp_yn" f = setf 8 f :=
  rowStep_col _ f 8 (by decide) (by decide)

lemma rowStep_kc9 (f : Cell → Cell) : rowStep KEEP_COLS "icu_yn" f = setf 9 f :=
  rowStep_col _ f 9 (by decide) (by decide)

lemma rowStep_kc10 (f : Cell → Cell) : rowStep KEEP_COLS "medcond_yn" f = setf 10 f :=
  rowStep_col _ f 10 (by decide) (by decide)

lemma setf_e0 (f : Cell → Cell) (c0 c1 c2 c3 c4 c5 c6 c7 c8 c9 c10 : Cell) :
    setf 0 f [c0, c1, c2, c3, c4, c5, c6, c7, c8, c9, c10] = [f c0, c1, c2, c3, c4, c5, c6, c7, c8, c9, c10] := rfl

lemma setf_e1 (f : Cell → Cell) (c0 c1 c2 c3 c4 c5 c6 c7 c8 c9 c10 : Cell) :
    setf 1 f [c0, c1, c2, c3, c4, c5, c6, c7, c8, c9, c10] = [c0, f c1, c2, c3, c4, c5, c6, c7, c8, c9, c10] := rfl

lemma setf_e2 (f : Cell → Cell) (c0 c1 c2 c3 c4 c5 c6 c7 c8 c9 c10 : Cell) :
    setf 2 f [c0, c1, c2, c3, c4, c5, c6, c7, c8, c9, c10] = [c0, c1, f c2, c3, c4, c5, c6, c7, c8, c9, c10] := rfl

lemma setf_e3 (f : Cell → Cell) (c0 c1 c2 c3 c4 c5 c6 c7 c8 c9 c10 : Cell) :
    setf 3 f [c0, c1, c2, c3, c4, c5, c6, c7, c8, c9, c10] = [c0, c1, c2, f c3, c4, c5, c6, c7, c8, c9, c10] := rfl

lemma setf_e4 (f : Cell → Cell) (c0 c1 c2 c3 c4 c5 c6 c7 c8 c9 c10 : Cell) :
    setf 4 f [c0, c1, c2, c3, c4, c5, c6, c7, c8, c9, c10] = [c0, c1, c2, c3, f c4, c5, c6, c7, c8, c9, c10] := rfl

lemma setf_e5 (f : Cell → Cell) (c0 c1 c2 c3 c4 c5 c6 c7 c8 c9 c10 : Cell) :
    setf 5 f [c0, c1, c2, c3, c4, c5, c6, c7, c8, c9, c10] = [c0, c1, c2, c3, c4, f c5, c6, c7, c8, c9, c10] := rfl

lemma setf_e6 (f : Cell → Cell) (c0 c1 c2 c3 c4 c5 c6 c7 c8 c9 c10 : Cell) :
    setf 6 f [c0, c1, c2, c3, c4, c5, c6, c7, c8, c9, c10] = [c0, c1, c2, c3, c4, c5, f c6, c7, c8, c9, c10] := rfl

lemma setf_e7 (f : Cell → Cell) (c0 c1 c2 c3 c4 c5 c6 c7 c8 c9 c10 : Cell) :
    setf 7 f [c0, c1, c2, c3, c4, c5, c6, c7, c8, c9, c10] = [c0, c1, c2, c3, c4, c5, c6, f c7, c8, c9, c10] := rfl

lemma setf_e8 (f : Cell → Cell) (c0 c1 c2 c3 c4 c5 c6 c7 c8 c9 c10 : Cell) :
    setf 8 f [c0, c1, c2, c3, c4, c5, c6, c7, c8, c9, c10] = [c0, c1, c2, c3, c4, c5, c6, c7, f c8, c9, c10] := rfl

lemma setf_e9 (f : Cell → Cell) (c0 c1 c2 c3 c4 c5 c6 c7 c8 c9 c10 : Cell) :
    setf 9 f [c0, c1, c2, c3, c4, c5, c6, c7, c8, c9, c10] = [c0, c1, c2, c3, c4, c5, c6, c7, c8, f c9, c10] := rfl

lemma setf_e10 (f : Cell → Cell) (c0 c1 c2 c3 c4 c5 c6 c7 c8 c9 c10 : Cell) :
    setf 10 f [c0, c1, c2, c3, c4, c5, c6, c7, c8, c9, c10] = [c0, c1, c2, c3, c4, c5, c6, c7, c8, c9, f c10] := rfl

/-- The action of `cleanRow` on one row of the fixed eleven-column schema. -/
lemma cleanRow_eleven (parse : String → Option Int)
    (c0 c1 c2 c3 c4 c5 c6 c7 c8 c9 c10 : Cell) :
    cleanRow KEEP_COLS parse [c0, c1, c2, c3, c4, c5, c6, c7, c8, c9, c10] =
      [stripCell c0, toDatetimeCell parse c1, stripUpperCell c2,
       catCleanCell c3, catCleanCell c4, catCleanCell c5, catCleanCell c6,
       catCleanCell c7, catCleanCell c8, catCleanCell c9, catCleanCell c10] := by
  unfold cleanRow catCleanCell
  simp only [STRIP_COLS, categorical_cols, List.foldl_cons, List.foldl_nil,
    rowStep_kc0, rowStep_kc1, rowStep_kc2, rowStep_kc3, rowStep_kc4, rowStep_kc5,
    rowStep_kc6, rowStep_kc7, rowStep_kc8, rowStep_kc9, rowStep_kc10,
    setf_e0, setf_e1, setf_e2, setf_e3, setf_e4, setf_e5, setf_e6, setf_e7,
    setf_e8, setf_e9, setf_e10]

lemma dedupFirst_subset (seen : List (List Cell)) (l : List (List Cell)) :
    ∀ x ∈ dedupFirst seen l, x ∈ l := by
  induction l generalizing seen with
  | nil => intro x hx; exact absurd hx (by simp [dedupFirst])
  | cons r rs ih =>
    intro x hx
    unfold dedupFirst at hx
    split at hx
    · exact List.mem_cons_of_mem _ (ih seen x hx)
    · rcases List.mem_cons.mp hx with h | h
      · exact h ▸ List.mem_cons_self _ _
      · exact List.mem_cons_of_mem _ (ih _ x h)

lemma eleven_of_length (r : List Cell) (h : r.length = 11) :
    ∃ c0 c1 c2 c3 c4 c5 c6 c7 c8 c9 c10,
      r = [c0, c1, c2, c3, c4, c5, c6, c7, c8, c9, c10] := by
  rcases r with _ | ⟨c0, _ | ⟨c1, _ | ⟨c2, _ | ⟨c3, _ | ⟨c4, _ | ⟨c5, _ | ⟨c6, _ | ⟨c7, _ | ⟨c8, _ | ⟨c9, _ | ⟨c10, _ | ⟨c11, t⟩⟩⟩⟩⟩⟩⟩⟩⟩⟩⟩⟩ <;>
    try exact ⟨c0, c1, c2, c3, c4, c5, c6, c7, c8, c9, c10, rfl⟩
  all_goals simp at h

lemma catCleanCell_isClean (x : Cell) :
    ∃ s, catCleanCell x = Cell.str s ∧ s ≠ "" ∧ s ≠ "None" ∧ s ≠ "nan" := by
  unfold catCleanCell stripCell replaceNoneCell fillUnknownCell
  by_cases h : (Cell.str (pyStrip (cellToStr x)) = Cell.str "None" ∨
      Cell.str (pyStrip (cellToStr x)) = Cell.str "nan" ∨
      Cell.str (pyStrip (cellToStr x)) = Cell.str "")
  · rw [if_pos h]
    exact ⟨"Unknown", rfl, by decide, by decide, by decide⟩
  · rw [if_neg h]
    push_neg at h
    obtain ⟨h1, h2, h3⟩ := h
    exact ⟨pyStrip (cellToStr x), rfl,
      fun hs => h3 (by rw [hs]), fun hs => h1 (by rw [hs]), fun hs => h2 (by rw [hs])⟩

lemma catCleanCell_missing (x : Cell) (h : missingMark x) :
    catCleanCell x = Cell.str "Unknown" := by
  rcases h with h | h | h | h | h <;> subst h <;> decide

lemma toDatetimeCell_nan_or_date (parse : String → Option Int) (x : Cell) :
    toDatetimeCell parse x = Cell.nan ∨ ∃ d, toDatetimeCell parse x = Cell.date d := by
  cases x with
  | pyNone => exact Or.inl rfl
  | nan => exact Or.inl rfl
  | str s =>
    cases hp : parse s with
    | none => exact Or.inl (by simp [toDatetimeCell, hp])
    | some d => exact Or.inr ⟨d, by simp [toDatetimeCell, hp]⟩
  | date d => exact Or.inr ⟨d, rfl⟩

lemma toDatetimeCell_unparseable (parse : String → Option Int) (s : String)
    (h : parse s = none) : toDatetimeCell parse (Cell.str s) = Cell.nan := by
  simp [toDatetimeCell, h]

end Ingestion

namespace Ingestion

set_option maxRecDepth 8000

/-! ## Claim theorems: fetcher and driver -/

/-- C3: for every request, if the first underlying attempt raises HTTP 429
and the retried identical request succeeds, `fetch_page` sleeps the fixed
2-second backoff exactly once, performs exactly two underlying requests,
and returns the second response's decoded JSON; if the retry fails with an
HTTP or network error, that error propagates to the caller. -/
theorem fetch_page_429_retry (http : Nat → ReqOutcome)
    (h0 : http 0 = ReqOutcome.httpError 429) :
    (∀ rows, http 1 = ReqOutcome.ok rows →
      fetch_page http = ⟨FetchResult.data rows, 2, [2]⟩) ∧
    (∀ s, http 1 = ReqOutcome.httpError s →
      fetch_page http = ⟨FetchResult.raised (PyError.httpErr s), 2, [2]⟩) ∧
    (http 1 = ReqOutcome.netError →
      fetch_page http = ⟨FetchResult.raised PyError.netErr, 2, [2]⟩) := by
  refine ⟨fun rows h1 => ?_, fun s h1 => ?_, fun h1 => ?_⟩ <;>
    simp [fetch_page, h0, h1]

/-- Witness for C3: a concrete rate-limited-then-ok attempt sequence. -/
theorem fetch_page_429_retry_witness :
    fetch_page retryHttp = ⟨FetchResult.data [[("sex", Cell.str "Female")]], 2, [2]⟩ :=
  (fetch_page_429_retry retryHttp rfl).1 _ rfl

/-- C4: if the first underlying attempt raises an HTTP error with a status
other than 429, `fetch_page` propagates it after exactly one underlying
request, with no retry and no sleep. -/
theorem fetch_page_http_error_no_retry (http : Nat → ReqOutcome) (s : Nat)
    (h0 : http 0 = ReqOutcome.httpError s) (hs : s ≠ 429) :
    fetch_page http = ⟨FetchResult.raised (PyError.httpErr s), 1, []⟩ := by
  simp [fetch_page, h0, hs]

/-- Witness for C4: a concrete HTTP 500 attempt sequence. -/
theorem fetch_page_http_error_no_retry_witness :
    fetch_page serverErrHttp = ⟨FetchResult.raised (PyError.httpErr 500), 1, []⟩ :=
  fetch_page_http_error_no_retry serverErrHttp 500 rfl (by decide)

/-- C5: a network-level failure of the underlying request makes
`fetch_page` return Python `None` ("no data") after one request without
raising, and the driver treats that as an empty page, ending the loop
through the no-rows terminal condition instead of aborting. -/
theorem fetch_page_net_error_driver_no_rows
    (http : Nat → Nat → Nat → ReqOutcome) (parse : String → Option Int)
    (ps mr fuel tf off ti cy : Nat)
    (h1 : tf < mr)
    (h0 : http (min ps (mr - tf)) off 0 = ReqOutcome.netError) :
    (fetch_page (http (min ps (mr - tf)) off)).result = FetchResult.noData ∧
    (∀ e, (fetch_page (http (min ps (mr - tf)) off)).result ≠ FetchResult.raised e) ∧
    driverLoop parse (fun l o => (fetch_page (http l o)).result) ps mr
      (fuel + 1) tf off ti cy = ⟨cy + 1, ti, tf, ExitReason.noRows⟩ := by
  have hf : fetch_page (http (min ps (mr - tf)) off) = ⟨FetchResult.noData, 1, []⟩ := by
    simp [fetch_page, h0]
  refine ⟨by rw [hf], fun e h => ?_, ?_⟩
  · rw [hf] at h
    exact FetchResult.noConfusion h
  · unfold driverLoop
    rw [if_pos h1]
    simp only [hf]

/-- Witness for C5: every underlying request times out; the driver run
with page size 2 and cap 5 exits through the no-rows condition. -/
theorem fetch_page_net_error_driver_no_rows_witness :
    (fetch_page (netErrHttp 2 0)).result = FetchResult.noData ∧
    (∀ e, (fetch_page (netErrHttp 2 0)).result ≠ FetchResult.raised e) ∧
    driverLoop noParse (fun l o => (fetch_page (netErrHttp l o)).result) 2 5
      (5 + 1) 0 0 0 0 = ⟨1, 0, 0, ExitReason.noRows⟩ :=
  fetch_page_net_error_driver_no_rows netErrHttp noParse 2 5 5 0 0 0 0
    (by decide) rfl

/-- C9: whenever an iteration's fetch returns fewer records than requested
(`fetched_count < need`), the driver stops the loop after completing that
iteration, even though `total_fetched < max_records` still holds. -/
theorem driver_short_page_stops (parse : String → Option Int)
    (fetchFn : Nat → Nat → FetchResult) (ps mr fuel tf off ti cy : Nat)
    (rows : List RawRecord)
    (h1 : tf < mr)
    (h2 : fetchFn (min ps (mr - tf)) off = FetchResult.data rows)
    (h3 : rows ≠ [])
    (h4 : rows.length < min ps (mr - tf))
    (h5 : tf + rows.length < mr) :
    driverLoop parse fetchFn ps mr (fuel + 1) tf off ti cy =
      ⟨cy + 1, ti + (clean_df parse (transform_rows_to_df rows)).rows.length,
       tf + rows.length, ExitReason.shortPage⟩ := by
  rcases rows with _ | ⟨r, rs⟩
  · exact absurd rfl h3
  · unfold driverLoop
    rw [if_pos h1]
    simp only [h2]
    rw [if_pos h4]

/-- Witness for C9: a source that always produces one row while five were
requested; the driver stops with the short-page condition at once. -/
theorem driver_short_page_stops_witness :
    driverLoop noParse shortSource 5 10 (10 + 1) 0 0 0 0 =
      ⟨1, (clean_df noParse
            (transform_rows_to_df [[("sex", Cell.str "Female")]])).rows.length,
       1, ExitReason.shortPage⟩ :=
  driver_short_page_stops noParse shortSource 5 10 10 0 0 0 0
    [[("sex", Cell.str "Female")]] (by decide) rfl (by decide) (by decide) (by decide)

/-- C2 counterexample: with page size 2, cap 5, and the honest fake source
over five distinct records (pages of sizes 2, 2, 1), the run does NOT end
through the short-page condition: at the third cycle `need = min 2 (5-4)
= 1` equals the page length 1, so the loop instead ends because
`total_fetched < max_records` fails. -/
theorem driver_five_records_not_short_page :
    (runDriver noParse fiveSource 2 5).exit ≠ ExitReason.shortPage := by
  decide

/-- C2 (amended): with page size 2, cap 5 and the fake source producing
pages of sizes 2, 2, 1, the driver performs exactly 3 fetch cycles and
inserts 5 records in total, but the loop terminates through the
`total_fetched < max_records` guard being exhausted, not through the
short-page break, because the third page's length 1 equals the clipped
request `need = 1`. -/
theorem driver_five_records_run :
    runDriver noParse fiveSource 2 5 = ⟨3, 5, 5, ExitReason.maxReached⟩ := by
  decide

end Ingestion

namespace Ingestion

set_option maxRecDepth 8000

/-! ## Claim theorems: the cleaner -/

/-- Every row of a cleaned `KEEP_COLS` frame is the image, under the
per-column cell pipeline, of some row of the input frame. -/
lemma clean_df_row_src (parse : String → Option Int) (df : DataFrame)
    (hc : df.cols = KEEP_COLS) (hlen : ∀ r ∈ df.rows, r.length = 11) :
    ∀ r' ∈ (clean_df parse df).rows,
      ∃ c0 c1 c2 c3 c4 c5 c6 c7 c8 c9 c10,
        [c0, c1, c2, c3, c4, c5, c6, c7, c8, c9, c10] ∈ df.rows ∧
        r' = [stripCell c0, toDatetimeCell parse c1, stripUpperCell c2,
              catCleanCell c3, catCleanCell c4, catCleanCell c5, catCleanCell c6,
              catCleanCell c7, catCleanCell c8, catCleanCell c9, catCleanCell c10] := by
  intro r' hr'
  rw [clean_df_decomp] at hr'
  obtain ⟨r0, hr0, hre⟩ := List.mem_map.mp hr'
  have hmem : r0 ∈ df.rows := dedupFirst_subset _ _ _ hr0
  obtain ⟨c0, c1, c2, c3, c4, c5, c6, c7, c8, c9, c10, rfl⟩ :=
    eleven_of_length r0 (hlen r0 hmem)
  rw [hc, cleanRow_eleven] at hre
  exact ⟨c0, c1, c2, c3, c4, c5, c6, c7, c8, c9, c10, hmem, hre.symm⟩

/-- C1 (amended): after `clean_df`, every cell of the eight
`categorical_cols` (age_group, sex, race, ethnicity, death_yn, hosp_yn,
icu_yn, medcond_yn) is a string different from `""`, `"None"` and `"nan"`
— a real value or the literal `"Unknown"` — and every missing marker
(blank, `"None"`, `"nan"`, null, or an absent value) in those columns
becomes `"Unknown"`. `case_month`, although listed with the categorical
columns by the claim, is only coerced to text and trimmed: its blanks and
`"None"`/`"nan"` markers persist. -/
theorem clean_df_categorical_unknown_invariant (parse : String → Option Int)
    (df : DataFrame) (hc : df.cols = KEEP_COLS)
    (hlen : ∀ r ∈ df.rows, r.length = 11) :
    ∀ r' ∈ (clean_df parse df).rows,
      (∀ c ∈ categorical_cols,
        ∃ s, r'.getD (KEEP_COLS.indexOf c) Cell.nan = Cell.str s ∧
          s ≠ "" ∧ s ≠ "None" ∧ s ≠ "nan") ∧
      ∃ r ∈ df.rows,
        (∀ c ∈ categorical_cols,
          missingMark (r.getD (KEEP_COLS.indexOf c) Cell.nan) →
            r'.getD (KEEP_COLS.indexOf c) Cell.nan = Cell.str "Unknown") ∧
        r'.getD (KEEP_COLS.indexOf "case_month") Cell.nan =
          stripCell (r.getD (KEEP_COLS.indexOf "case_month") Cell.nan) := by
  intro r' hr'
  obtain ⟨c0, c1, c2, c3, c4, c5, c6, c7, c8, c9, c10, hmem, rfl⟩ :=
    clean_df_row_src parse df hc hlen r' hr'
  refine ⟨?_, ⟨[c0, c1, c2, c3, c4, c5, c6, c7, c8, c9, c10], hmem, ?_, rfl⟩⟩
  · intro c hcm
    simp only [categorical_cols, List.mem_cons, List.not_mem_nil, or_false] at hcm
    rcases hcm with rfl | rfl | rfl | rfl | rfl | rfl | rfl | rfl <;>
      exact catCleanCell_isClean _
  · intro c hcm
    simp only [categorical_cols, List.mem_cons, List.not_mem_nil, or_false] at hcm
    rcases hcm with rfl | rfl | rfl | rfl | rfl | rfl | rfl | rfl <;>
      exact fun hm => catCleanCell_missing _ hm

/-- Witness for C1: the `sex` cell of the cleaned one-row frame (whose
`sex` was `None`) is a clean string, namely `"Unknown"`. -/
theorem clean_df_categorical_unknown_invariant_witness :
    ∃ s,
      List.getD
        [Cell.str "2020-07", Cell.nan, Cell.str "NY", Cell.str "Unknown",
         Cell.str "Unknown", Cell.str "Unknown", Cell.str "Unknown",
         Cell.str "Yes", Cell.str "Unknown", Cell.str "N", Cell.str "Missing"]
        (KEEP_COLS.indexOf "sex") Cell.nan = Cell.str s ∧
      s ≠ "" ∧ s ≠ "None" ∧ s ≠ "nan" :=
  (clean_df_categorical_unknown_invariant noParse unkFrame rfl (by decide)
    [Cell.str "2020-07", Cell.nan, Cell.str "NY", Cell.str "Unknown",
     Cell.str "Unknown", Cell.str "Unknown", Cell.str "Unknown",
     Cell.str "Yes", Cell.str "Unknown", Cell.str "N", Cell.str "Missing"]
    (by decide)).1 "sex" (by decide)

/-- C1 counterexample: the claim as stated also lists `case_month` among
the categorical columns, but a `case_month` cell equal to the empty string
survives `clean_df` as the empty string instead of becoming `"Unknown"`:
`case_month` is missing from the source's `categorical_cols` list. -/
theorem clean_df_case_month_empty_persists :
    ((clean_df noParse
        ⟨KEEP_COLS,
         [[Cell.str "", Cell.str "2020-07-01", Cell.str "NY", Cell.str "A",
           Cell.str "B", Cell.str "C", Cell.str "D", Cell.str "E",
           Cell.str "F", Cell.str "G", Cell.str "H"]]⟩).rows.getD 0 []).getD
      (KEEP_COLS.indexOf "case_month") Cell.nan = Cell.str "" ∧
    Cell.str "" ≠ Cell.str "Unknown" := by
  decide

/-- C8: `clean_df` sends the `cdc_case_earliest_dt` cell of every
surviving row to a parsed date or to the null date, never raising: an
unparseable date string becomes the null date (`NaT`). -/
theorem clean_df_date_coerced_never_raises (parse : String → Option Int)
    (df : DataFrame) (hc : df.cols = KEEP_COLS)
    (hlen : ∀ r ∈ df.rows, r.length = 11) :
    ∀ r' ∈ (clean_df parse df).rows,
      (r'.getD (KEEP_COLS.indexOf "cdc_case_earliest_dt") Cell.nan = Cell.nan ∨
        ∃ d, r'.getD (KEEP_COLS.indexOf "cdc_case_earliest_dt") Cell.nan =
          Cell.date d) ∧
      ∃ r ∈ df.rows,
        r'.getD (KEEP_COLS.indexOf "cdc_case_earliest_dt") Cell.nan =
          toDatetimeCell parse
            (r.getD (KEEP_COLS.indexOf "cdc_case_earliest_dt") Cell.nan) ∧
        ∀ s, r.getD (KEEP_COLS.indexOf "cdc_case_earliest_dt") Cell.nan =
            Cell.str s → parse s = none →
          r'.getD (KEEP_COLS.indexOf "cdc_case_earliest_dt") Cell.nan =
            Cell.nan := by
  intro r' hr'
  obtain ⟨c0, c1, c2, c3, c4, c5, c6, c7, c8, c9, c10, hmem, rfl⟩ :=
    clean_df_row_src parse df hc hlen r' hr'
  refine ⟨toDatetimeCell_nan_or_date parse c1,
    ⟨[c0, c1, c2, c3, c4, c5, c6, c7, c8, c9, c10], hmem, rfl, ?_⟩⟩
  intro s hs hp
  have hs' : c1 = Cell.str s := hs
  subst hs'
  exact toDatetimeCell_unparseable parse s hp

/-- Witness for C8: the unparseable date string of the concrete one-row
frame becomes the null date. -/
theorem clean_df_date_coerced_never_raises_witness :
    List.getD
      [Cell.str "2020-07", Cell.nan, Cell.str "NY", Cell.str "a",
       Cell.str "b", Cell.str "c", Cell.str "d", Cell.str "e", Cell.str "f",
       Cell.str "g", Cell.str "h"]
      (KEEP_COLS.indexOf "cdc_case_earliest_dt") Cell.nan = Cell.nan ∨
    ∃ d, List.getD
      [Cell.str "2020-07", Cell.nan, Cell.str "NY", Cell.str "a",
       Cell.str "b", Cell.str "c", Cell.str "d", Cell.str "e", Cell.str "f",
       Cell.str "g", Cell.str "h"]
      (KEEP_COLS.indexOf "cdc_case_earliest_dt") Cell.nan = Cell.date d :=
  (clean_df_date_coerced_never_raises noParse dateFrame rfl (by decide)
    [Cell.str "2020-07", Cell.nan, Cell.str "NY", Cell.str "a",
     Cell.str "b", Cell.str "c", Cell.str "d", Cell.str "e", Cell.str "f",
     Cell.str "g", Cell.str "h"] (by decide)).1

/-- C10 (amended): `res_state` is excluded from the missing-value
replacement, and its cell is stringified, trimmed and uppercased: a
Python-`None` cell is rendered as the literal string `"NONE"`, while a
`NaN` cell (in particular one produced from a record lacking the key when
the column exists) is rendered as `"NAN"` — in both cases a plain string,
not null and not `"Unknown"`. -/
theorem clean_df_res_state_null_stringified (parse : String → Option Int)
    (df : DataFrame) (hc : df.cols = KEEP_COLS)
    (hlen : ∀ r ∈ df.rows, r.length = 11) :
    ∀ r' ∈ (clean_df parse df).rows,
      (∃ s, r'.getD (KEEP_COLS.indexOf "res_state") Cell.nan = Cell.str s) ∧
      ∃ r ∈ df.rows,
        r'.getD (KEEP_COLS.indexOf "res_state") Cell.nan =
          stripUpperCell (r.getD (KEEP_COLS.indexOf "res_state") Cell.nan) ∧
        (r.getD (KEEP_COLS.indexOf "res_state") Cell.nan = Cell.pyNone →
          r'.getD (KEEP_COLS.indexOf "res_state") Cell.nan =
            Cell.str "NONE") ∧
        (r.getD (KEEP_COLS.indexOf "res_state") Cell.nan = Cell.nan →
          r'.getD (KEEP_COLS.indexOf "res_state") Cell.nan =
            Cell.str "NAN") := by
  intro r' hr'
  obtain ⟨c0, c1, c2, c3, c4, c5, c6, c7, c8, c9, c10, hmem, rfl⟩ :=
    clean_df_row_src parse df hc hlen r' hr'
  refine ⟨⟨pyUpper (pyStrip (cellToStr c2)), rfl⟩,
    ⟨[c0, c1, c2, c3, c4, c5, c6, c7, c8, c9, c10], hmem, rfl, ?_, ?_⟩⟩
  · intro h
    have h2 : c2 = Cell.pyNone := h
    subst h2
    exact (by decide : stripUpperCell Cell.pyNone = Cell.str "NONE")
  · intro h
    have h2 : c2 = Cell.nan := h
    subst h2
    exact (by decide : stripUpperCell Cell.nan = Cell.str "NAN")

/-- Witness for C10 (amended): the `None`-valued `res_state` of the
concrete one-row frame is rendered as `"NONE"`. -/
theorem clean_df_res_state_null_stringified_witness :
    ∃ s, List.getD
      [Cell.str "m", Cell.nan, Cell.str "NONE", Cell.str "a", Cell.str "b",
       Cell.str "c", Cell.str "d", Cell.str "e", Cell.str "f", Cell.str "g",
       Cell.str "h"]
      (KEEP_COLS.indexOf "res_state") Cell.nan = Cell.str s :=
  (clean_df_res_state_null_stringified noParse resFrame rfl (by decide)
    [Cell.str "m", Cell.nan, Cell.str "NONE", Cell.str "a", Cell.str "b",
     Cell.str "c", Cell.str "d", Cell.str "e", Cell.str "f", Cell.str "g",
     Cell.str "h"] (by decide)).1

/-- C10 counterexample: the claim as stated says an originally-absent
`res_state` is rendered `"NONE"`, but a record lacking the key while the
column exists yields a `NaN` cell, which stringifies to `"nan"` and
uppercases to `"NAN"`, not `"NONE"`. -/
theorem clean_df_res_state_absent_to_NAN :
    List.lookup "res_state" ([] : RawRecord) = none ∧
    ((clean_df noParse (transform_rows_to_df
        [[("res_state", Cell.str "CA")], []])).rows.getD 1 []).getD
      (KEEP_COLS.indexOf "res_state") Cell.nan = Cell.str "NAN" ∧
    Cell.str "NAN" ≠ Cell.str "NONE" := by
  decide

end Ingestion

namespace Ingestion

set_option maxRecDepth 8000

/-! ## Claim theorems: purity of the cleaner -/

lemma inplace_notAliased (f : DataFrame → DataFrame) (s : ExecState)
    (h : s.aliased = false) : inplace f s = ⟨s.caller, f s.cur, false⟩ := by
  unfold inplace
  rw [h]
  rfl

lemma foldl_inplace (g : String → DataFrame → DataFrame) (cs : List String)
    (a d : DataFrame) :
    cs.foldl (fun s c => inplace (g c) s) ⟨a, d, false⟩ =
      ⟨a, cs.foldl (fun d c => g c d) d, false⟩ := by
  induction cs generalizing d with
  | nil => rfl
  | cons c cs ih =>
    rw [List.foldl_cons, List.foldl_cons, inplace_notAliased _ _ rfl]
    exact ih (g c d)

lemma foldl_inplace2 (g h : String → DataFrame → DataFrame) (cs : List String)
    (a d : DataFrame) :
    cs.foldl (fun s c => inplace (h c) (inplace (g c) s)) ⟨a, d, false⟩ =
      ⟨a, cs.foldl (fun d c => h c (g c d)) d, false⟩ := by
  induction cs generalizing d with
  | nil => rfl
  | cons c cs ih =>
    rw [List.foldl_cons, List.foldl_cons, inplace_notAliased _ _ rfl,
      inplace_notAliased _ _ rfl]
    exact ih (h c (g c d))

/-- C7: executed in the aliasing model, the body of `clean_df` leaves the
caller's frame object holding its original value — the local name is
rebound to a copy before any in-place column write — and returns an
object distinct from the caller's, whose value is the pure `clean_df`. -/
theorem clean_df_pure_no_mutation (parse : String → Option Int)
    (df : DataFrame) :
    clean_df_exec parse df = ⟨df, clean_df parse df, false⟩ := by
  unfold clean_df_exec clean_df
  simp only [rebind]
  rw [inplace_notAliased _ _ rfl, inplace_notAliased _ _ rfl,
    foldl_inplace, foldl_inplace2]
  rfl

end Ingestion

namespace Ingestion

set_option maxRecDepth 8000

/-! ## Claim theorems: the row normalizer -/

lemma getD_map_of_lt {α β : Type} (f : α → β) (l : List α) (i : Nat)
    (hi : i < l.length) (d : β) (e : α) :
    (l.map f).getD i d = f (l.getD i e) := by
  simp [List.getD_eq_getElem?_getD, List.getElem?_map,
    List.getElem?_eq_getElem hi]

lemma getD_map_indexOf (cs : List String) (f : String → Cell) (c : String)
    (h : c ∈ cs) :
    (cs.map f).getD (cs.indexOf c) Cell.nan = f c := by
  have hlt : cs.indexOf c < cs.length := List.indexOf_lt_length.mpr h
  rw [getD_map_of_lt f cs _ hlt Cell.nan c, List.getD_eq_getElem?_getD,
    List.getElem?_eq_getElem hlt, Option.getD_some, List.getElem_indexOf hlt]

lemma getD_replicate_lt (a : Cell) (k j : Nat) (hj : j < k) (d : Cell) :
    (List.replicate k a).getD j d = a := by
  rw [List.getD_eq_getElem?_getD, List.getElem?_eq_getElem (by simpa using hj)]
  simp

lemma recordRow_length (cols : List String) (r : RawRecord) :
    (recordRow cols r).length = cols.length := by
  simp [recordRow]

lemma recordRow_cell (cols : List String) (rec : RawRecord) (c : String)
    (h : c ∈ cols) :
    (recordRow cols rec).getD (cols.indexOf c) Cell.nan =
      (List.lookup c rec).getD Cell.nan :=
  getD_map_indexOf cols _ c h

lemma fromRecords_cols (rs : List RawRecord) :
    (fromRecords rs).cols = recordCols rs := rfl

lemma fromRecords_rows (rs : List RawRecord) :
    (fromRecords rs).rows = rs.map (recordRow (recordCols rs)) := rfl

lemma selectCols_cols (df : DataFrame) (cs : List String) :
    (selectCols df cs).cols = cs := rfl

lemma selectCols_rows (df : DataFrame) (cs : List String) :
    (selectCols df cs).rows =
      df.rows.map (fun r => cs.map (fun c => r.getD (df.cols.indexOf c) Cell.nan)) :=
  rfl

/-- The `add missing columns` fold appends some fresh columns on the right
and pads every row with that many `None` cells. -/
lemma addMissing_fold (cs : List String) (df : DataFrame) :
    ∃ extra : List String,
      (cs.foldl (fun d c => if c ∈ d.cols then d else addNoneCol d c) df).cols
        = df.cols ++ extra ∧
      (cs.foldl (fun d c => if c ∈ d.cols then d else addNoneCol d c) df).rows
        = df.rows.map (fun r => r ++ List.replicate extra.length Cell.pyNone) ∧
      (∀ c ∈ cs, c ∈ df.cols ++ extra) ∧
      (∀ c ∈ extra, c ∉ df.cols) := by
  induction cs generalizing df with
  | nil =>
    refine ⟨[], by simp, by simp, by simp, by simp⟩
  | cons c cs ih =>
    rw [List.foldl_cons]
    by_cases hm : c ∈ df.cols
    · rw [if_pos hm]
      obtain ⟨extra, h1, h2, h3, h4⟩ := ih df
      refine ⟨extra, h1, h2, fun x hx => ?_, h4⟩
      rcases List.mem_cons.mp hx with rfl | hx
      · exact List.mem_append_left _ hm
      · exact h3 x hx
    · rw [if_neg hm]
      obtain ⟨extra, h1, h2, h3, h4⟩ := ih (addNoneCol df c)
      refine ⟨c :: extra, ?_, ?_, ?_, ?_⟩
      · rw [h1]
        simp [addNoneCol]
      · rw [h2]
        simp [addNoneCol, List.map_map, Function.comp, List.replicate_succ,
          List.append_assoc]
      · intro x hx
        rcases List.mem_cons.mp hx with rfl | hx
        · exact List.mem_append_right _ (List.mem_cons_self _ _)
        · have hx' := h3 x hx
          rw [show (addNoneCol df c).cols = df.cols ++ [c] from rfl,
            List.append_assoc] at hx'
          simpa using hx'
      · intro x hx
        rcases List.mem_cons.mp hx with rfl | hx
        · exact hm
        · intro hc
          exact h4 x hx (List.mem_append_left _ hc)

/-- `addMissingCols` appends some fresh columns on the right and pads
every row with that many `None` cells; afterwards every fixed column is
present. -/
lemma addMissingCols_spec (df : DataFrame) :
    ∃ extra : List String,
      (addMissingCols df).cols = df.cols ++ extra ∧
      (addMissingCols df).rows
        = df.rows.map (fun r => r ++ List.replicate extra.length Cell.pyNone) ∧
      (∀ c ∈ KEEP_COLS, c ∈ df.cols ++ extra) ∧
      (∀ c ∈ extra, c ∉ df.cols) :=
  addMissing_fold KEEP_COLS df

/-- C6: `transform_rows_to_df` returns a frame whose columns are exactly
`KEEP_COLS` in that order (also on empty input), whose row count equals
the input length — no row dropped or added — and in which a fixed column
absent from a given record is filled with a null cell (`None` or `NaN`). -/
theorem transform_rows_to_df_schema (records : List RawRecord) :
    (transform_rows_to_df records).cols = KEEP_COLS ∧
    (transform_rows_to_df records).rows.length = records.length ∧
    (∀ i, i < records.length → ∀ c ∈ KEEP_COLS,
      List.lookup c (records.getD i []) = none →
      ((transform_rows_to_df records).rows.getD i []).getD
          (KEEP_COLS.indexOf c) Cell.nan = Cell.pyNone ∨
      ((transform_rows_to_df records).rows.getD i []).getD
          (KEEP_COLS.indexOf c) Cell.nan = Cell.nan) := by
  by_cases hrec : records = []
  · subst hrec
    refine ⟨rfl, rfl, ?_⟩
    intro i hi
    exact absurd hi (by simp)
  · obtain ⟨extra, h1, h2, h3, h4⟩ := addMissingCols_spec (fromRecords records)
    rw [fromRecords_cols] at h1 h3
    rw [fromRecords_rows] at h2
    have htr : transform_rows_to_df records =
        selectCols (addMissingCols (fromRecords records)) KEEP_COLS := by
      unfold transform_rows_to_df
      rw [if_neg hrec]
    have hlen1 : (addMissingCols (fromRecords records)).rows.length =
        records.length := by
      rw [h2, List.length_map, List.length_map]
    refine ⟨by rw [htr, selectCols_cols], by rw [htr, selectCols_rows,
      List.length_map, hlen1], ?_⟩
    intro i hi c hc hlook
    have hi1 : i < (addMissingCols (fromRecords records)).rows.length := by
      rw [hlen1]
      exact hi
    have hrow : (transform_rows_to_df records).rows.getD i [] =
        KEEP_COLS.map (fun c =>
          ((addMissingCols (fromRecords records)).rows.getD i []).getD
            ((addMissingCols (fromRecords records)).cols.indexOf c) Cell.nan) := by
      rw [htr, selectCols_rows]
      exact getD_map_of_lt _ _ i hi1 [] []
    have hpad : (addMissingCols (fromRecords records)).rows.getD i [] =
        recordRow (recordCols records) (records.getD i []) ++
          List.replicate extra.length Cell.pyNone := by
      rw [h2, getD_map_of_lt _ _ i (by rw [List.length_map]; exact hi) [] [],
        getD_map_of_lt _ _ i hi [] []]
    rw [hrow, getD_map_indexOf _ _ c hc, hpad, h1]
    by_cases hc0 : c ∈ recordCols records
    · right
      rw [List.indexOf_append_of_mem hc0]
      have hidx : (recordCols records).indexOf c <
          (recordRow (recordCols records) (records.getD i [])).length := by
        rw [recordRow_length]
        exact List.indexOf_lt_length.mpr hc0
      rw [List.getD_append _ _ _ _ hidx, recordRow_cell _ _ c hc0, hlook]
      rfl
    · left
      have hcex : c ∈ extra := by
        rcases List.mem_append.mp (h3 c hc) with h | h
        · exact absurd h hc0
        · exact h
      rw [List.indexOf_append_of_not_mem hc0]
      have hge : (recordRow (recordCols records) (records.getD i [])).length ≤
          (recordCols records).length + extra.indexOf c := by
        rw [recordRow_length]
        exact Nat.le_add_right _ _
      rw [List.getD_append_right _ _ _ _ hge, recordRow_length]
      have heq : (recordCols records).length + extra.indexOf c -
          (recordCols records).length = extra.indexOf c := by
        omega
      rw [heq]
      exact getD_replicate_lt _ _ _ (List.indexOf_lt_length.mpr hcex) _

/-- Witness for C6: a concrete two-record input whose second record lacks
every fixed column; its `sex` cell is filled with a null. -/
theorem transform_rows_to_df_schema_witness :
    (transform_rows_to_df [[("res_state", Cell.str "CA")], []]).cols = KEEP_COLS ∧
    (transform_rows_to_df [[("res_state", Cell.str "CA")], []]).rows.length = 2 ∧
    (((transform_rows_to_df [[("res_state", Cell.str "CA")], []]).rows.getD 1 []).getD
        (KEEP_COLS.indexOf "sex") Cell.nan = Cell.pyNone ∨
      ((transform_rows_to_df [[("res_state", Cell.str "CA")], []]).rows.getD 1 []).getD
        (KEEP_COLS.indexOf "sex") Cell.nan = Cell.nan) :=
  have h := transform_rows_to_df_schema [[("res_state", Cell.str "CA")], []]
  ⟨h.1, h.2.1, h.2.2 1 (by decide) "sex" (by decide) (by decide)⟩

end Ingestion
